import Mathlib

/-!
Shallow embedding of `src/main.py` — a Flask-based launcher for a single
external Minecraft (Fabric) server process.

The embedding models:
- JSON-ish values (`JVal`) and Python dicts as ordered association lists
  (`Dict`), with `Dict.getD` mirroring `dict.get(key, default)` and
  `dictUpdate` mirroring `dict.update`;
- the relevant filesystem slice (`FS`: jar file, `world` marker directory,
  `eula.txt`, `server.properties`);
- the external process handle (`ProcHandle`), whose `ProcBehavior` records
  whether the `Popen` call gave it a stdin pipe, whether writing to that
  pipe succeeds, and whether the process exits within the 30-second
  graceful-stop wait;
- the `MinecraftServer` class methods `download_server`,
  `generate_server_files`, `start`, `stop` as explicit state-passing
  functions, with nondeterministic environment outcomes (network failure,
  write failure, bootstrap timeout, spawn failure) resolved by environment
  records (`DlEnv`, `GenEnv`, `StartEnv`);
- the Flask routes `start_server` (`POST /start-server`), `server_status`
  (`GET /server-status`) and the `POST` branch of `server_config`
  (`POST /api/config`) over the module-global application state
  (`AppState`: the `mc_server` instance plus `current_config` and the
  filesystem).

Python exceptions are modelled by explicit branching: each `try` body is
translated step by step, and any step that raises routes control to the
translation of the matching `except` block.
-/

namespace MCApi

/-- A JSON-ish value as it appears in a parsed request body or a Python
dict: a string, an integer, or a boolean. -/
inductive JVal where
  | str : String → JVal
  | num : Int → JVal
  | bool : Bool → JVal
deriving DecidableEq, Repr

/-- Python `str()` applied to a `JVal`, as used by the f-string
`f"{key}={value}\n"` in `generate_server_files`. -/
def pyStr : JVal → String
  | .str s => s
  | .num n => toString n
  | .bool b => if b then "True" else "False"

/-- A Python dict with string keys, in insertion order. -/
abbrev Dict := List (String × JVal)

/-- `d.get(k, dflt)`: the value of the first binding of `k`, or `dflt`. -/
def Dict.getD (d : Dict) (k : String) (dflt : JVal) : JVal :=
  match d.find? (fun p => p.1 = k) with
  | some p => p.2
  | none => dflt

/-- One step of `dict.update`: overwrite the binding of `k` in place if it
exists (keeping its position), otherwise append it at the end. -/
def dictInsert (d : Dict) (k : String) (v : JVal) : Dict :=
  if d.any (fun p => p.1 = k) then
    d.map (fun p => if p.1 = k then (k, v) else p)
  else
    d ++ [(k, v)]

/-- `current_config.update(config)`: fold every key/value pair of the
update into the base dict. -/
def dictUpdate (d : Dict) (u : Dict) : Dict :=
  u.foldl (fun acc p => dictInsert acc p.1 p.2) d

/-- Lookup in a list of string pairs (used to inspect the generated
properties lines). -/
def assocStr (l : List (String × String)) (k : String) : Option String :=
  (l.find? (fun p => p.1 = k)).map Prod.snd

/-- The slice of the filesystem the program touches under `SERVER_DIR`:
the jar artifact, the `world` marker directory, `eula.txt` and
`server.properties` (each `none` when absent). -/
structure FS where
  jarExists : Bool
  worldExists : Bool
  eula : Option String
  props : Option String
deriving DecidableEq, Repr

/-- Behaviour of the external java process relevant to `stop`:
whether `Popen` was given `stdin=subprocess.PIPE` (so that
`self.process.stdin` is a stream rather than `None`), whether writing to
and flushing that stream succeeds, and whether the process exits within
the 30-second `wait(timeout=30)`. -/
structure ProcBehavior where
  stdinPiped : Bool
  stdinWriteOk : Bool
  exitsWithin30 : Bool
deriving DecidableEq, Repr

/-- A held process reference: its behaviour plus whether the operating
system process is still alive. -/
structure ProcHandle where
  behavior : ProcBehavior
  alive : Bool
deriving DecidableEq, Repr

/-- The mutable fields of the `MinecraftServer` instance:
`self.process`, `self.is_running`, `self.port`. -/
structure MCState where
  process : Option ProcHandle
  is_running : Bool
  port : JVal
deriving DecidableEq, Repr

/-- `MinecraftServer.__init__`: no process, not running, default port. -/
def MinecraftServer.init : MCState :=
  { process := none, is_running := false, port := JVal.num 25565 }

/-- Environment outcomes for `download_server`: whether the HTTP GET of
the Fabric jar succeeds with a success status, and whether the local
chunked write succeeds. -/
structure DlEnv where
  networkOk : Bool
  writeOk : Bool
deriving DecidableEq, Repr

/-- `MinecraftServer.download_server`: if the jar already exists, succeed
immediately; otherwise fetch and write it, failing (returning `False`
after the blanket `except`) on network or write failure. -/
def MinecraftServer.download_server (env : DlEnv) (fs : FS) : FS × Bool :=
  if fs.jarExists then (fs, true)
  else if env.networkOk && env.writeOk then ({ fs with jarExists := true }, true)
  else (fs, false)

/-- Environment outcomes for `generate_server_files`: whether the
bootstrap `subprocess.run(..., timeout=30)` raises `TimeoutExpired`, its
exit code when it completes, whether the completed bootstrap run created
the `world` marker, and whether each of the two file writes fails. -/
structure GenEnv where
  bootstrapTimesOut : Bool
  bootstrapExitCode : Int
  bootstrapCreatesWorld : Bool
  eulaWriteFails : Bool
  propsWriteFails : Bool
deriving DecidableEq, Repr

/-- The properties written by `generate_server_files`, in the insertion
order of the Python dict literal: the five config-derived entries, then
the three fixed policy entries. -/
def serverProperties (config : Dict) : List (String × String) :=
  [ ("motd", pyStr (config.getD "motd" (JVal.str "A Minecraft Server"))),
    ("gamemode", pyStr (config.getD "gamemode" (JVal.str "survival"))),
    ("difficulty", pyStr (config.getD "difficulty" (JVal.str "easy"))),
    ("max-players", pyStr (config.getD "max_players" (JVal.num 20))),
    ("server-port", pyStr (config.getD "port" (JVal.num 25565))),
    ("online-mode", "false"),
    ("enable-command-block", "true"),
    ("spawn-protection", "0") ]

/-- The full text written to `server.properties`: one `key=value` line
per entry, in order. -/
def serverPropertiesContent (config : Dict) : String :=
  String.join ((serverProperties config).map (fun kv => kv.1 ++ "=" ++ kv.2 ++ "\n"))

/-- Result of `generate_server_files`: the filesystem afterwards, the
returned boolean, and whether the bootstrap invocation of the jar ran. -/
structure GenResult where
  fs : FS
  ok : Bool
  bootstrapRan : Bool
deriving DecidableEq, Repr

/-- The two file writes of `generate_server_files` (EULA acceptance, then
the properties file); a failing write raises into the blanket `except`,
which returns `False`. -/
def genWrites (env : GenEnv) (config : Dict) (fs : FS) (ran : Bool) : GenResult :=
  if env.eulaWriteFails then
    { fs := fs, ok := false, bootstrapRan := ran }
  else
    let fs1 := { fs with eula := some "eula=true\n" }
    if env.propsWriteFails then
      { fs := fs1, ok := false, bootstrapRan := ran }
    else
      { fs := { fs1 with props := some (serverPropertiesContent config) },
        ok := true, bootstrapRan := ran }

/-- `MinecraftServer.generate_server_files`: if the `world` marker is
absent, run the jar once with `timeout=30` (no `check=True`, so a
non-zero exit code is ignored; a timeout raises `TimeoutExpired`, which
the blanket `except` turns into `return False` before any file is
written); then write `eula.txt` and `server.properties`. -/
def MinecraftServer.generate_server_files (env : GenEnv) (config : Dict) (fs : FS) :
    GenResult :=
  if fs.worldExists then
    genWrites env config fs false
  else if env.bootstrapTimesOut then
    { fs := fs, ok := false, bootstrapRan := true }
  else
    genWrites env config { fs with worldExists := env.bootstrapCreatesWorld } true

/-- Result of `MinecraftServer.stop`: the instance state afterwards, the
returned boolean, and a trace of the observable actions: whether the
`"stop\n"` directive was written and flushed to the process's stdin,
whether the 30-second `wait` was reached, and whether `terminate()` was
called. -/
structure StopResult where
  state : MCState
  ok : Bool
  wroteDirective : Bool
  waited : Bool
  forcedTerminate : Bool
deriving DecidableEq, Repr

/-- `MinecraftServer.stop`, translated step by step from the `try` body:

- no process held: set `is_running := False`, return `True`;
- process held: `self.process.stdin.write("stop\n")` raises when the
  `Popen` gave no stdin pipe (`stdin` is `None`) or the stream is broken;
  the `except` block then calls `terminate()` on the still-held process
  and returns `False` — it does NOT clear `self.process` and does NOT set
  `self.is_running = False`;
- directive written: `wait(timeout=30)` raises `TimeoutExpired` when the
  process does not exit in time, landing in the same `except` block;
- otherwise: clear the process, set `is_running := False`, return
  `True`. -/
def MinecraftServer.stop (s : MCState) : StopResult :=
  match s.process with
  | none =>
      { state := { s with is_running := false }, ok := true,
        wroteDirective := false, waited := false, forcedTerminate := false }
  | some p =>
      if p.behavior.stdinPiped && p.behavior.stdinWriteOk then
        if p.behavior.exitsWithin30 then
          { state := { s with process := none, is_running := false }, ok := true,
            wroteDirective := true, waited := true, forcedTerminate := false }
        else
          { state := { s with process := some { p with alive := false } }, ok := false,
            wroteDirective := true, waited := true, forcedTerminate := true }
      else
        { state := { s with process := some { p with alive := false } }, ok := false,
          wroteDirective := false, waited := false, forcedTerminate := true }

/-- Environment outcomes for `MinecraftServer.start`: the download and
file-generation environments, whether the `Popen` spawn succeeds, and the
future behaviour of the spawned process (whether its stdin stream would
accept writes if it had one, and whether it would exit within a
30-second wait after a stop directive). -/
structure StartEnv where
  dl : DlEnv
  gen : GenEnv
  spawnOk : Bool
  spawnedWriteOk : Bool
  spawnedExitsWithin30 : Bool
deriving DecidableEq, Repr

/-- Result of `MinecraftServer.start`: instance state, filesystem, the
returned boolean, and whether the output-monitor thread was launched. -/
structure StartResult where
  state : MCState
  fs : FS
  ok : Bool
  monitorStarted : Bool
deriving DecidableEq, Repr

/-- `MinecraftServer.start`: set `self.port` from the config (even on
later failure), then download the jar, generate the files, and spawn the
process. The `Popen` call passes `stdout=PIPE, stderr=STDOUT` but no
`stdin` argument, so the spawned process's `stdin` attribute is `None`:
the held handle has `stdinPiped := false`. On success the state becomes
running and exactly one monitor thread is started. -/
def MinecraftServer.start (env : StartEnv) (config : Dict) (s : MCState) (fs : FS) :
    StartResult :=
  let s1 := { s with port := config.getD "port" (JVal.num 25565) }
  let dl := MinecraftServer.download_server env.dl fs
  if !dl.2 then
    { state := s1, fs := dl.1, ok := false, monitorStarted := false }
  else
    let g := MinecraftServer.generate_server_files env.gen config dl.1
    if !g.ok then
      { state := s1, fs := g.fs, ok := false, monitorStarted := false }
    else if !env.spawnOk then
      { state := s1, fs := g.fs, ok := false, monitorStarted := false }
    else
      { state := { s1 with
          process := some
            { behavior :=
                { stdinPiped := false,
                  stdinWriteOk := env.spawnedWriteOk,
                  exitsWithin30 := env.spawnedExitsWithin30 },
              alive := true },
          is_running := true },
        fs := g.fs, ok := true, monitorStarted := true }

/-- The module-global application state: the `mc_server` instance, the
global `current_config` dict, and the filesystem. -/
structure AppState where
  mc : MCState
  current_config : Dict
  fs : FS
deriving DecidableEq, Repr

/-- A JSON response body as built by the routes via `jsonify`: only the
keys actually set are `some`. -/
structure ApiResponse where
  success : Bool
  message : Option String
  error : Option String
  server_config : Option Dict
  config : Option Dict
deriving DecidableEq, Repr

/-- The `current_config` dict as rebuilt by the `start_server` route from
the request body: defaults for omitted fields and the port forced to
25565 regardless of the body. -/
def defaultedConfig (body : Dict) : Dict :=
  [ ("motd", body.getD "motd" (JVal.str "A Minecraft Server")),
    ("gamemode", body.getD "gamemode" (JVal.str "survival")),
    ("difficulty", body.getD "difficulty" (JVal.str "easy")),
    ("max_players", body.getD "maxPlayers" (JVal.num 20)),
    ("port", JVal.num 25565) ]

/-- The `POST /start-server` route: rebuild and store `current_config`
from the body (this assignment happens BEFORE the `is_running` check),
then reject with `'Server is already running'` if running, else call
`mc_server.start(current_config)` and report its outcome. -/
def start_server (env : StartEnv) (body : Dict) (a : AppState) :
    ApiResponse × AppState :=
  let cfg := defaultedConfig body
  let a1 := { a with current_config := cfg }
  if a1.mc.is_running then
    ({ success := false, message := none, error := some "Server is already running",
       server_config := none, config := none }, a1)
  else
    let r := MinecraftServer.start env cfg a1.mc a1.fs
    let a2 := { a1 with mc := r.state, fs := r.fs }
    if r.ok then
      ({ success := true, message := some "Server started successfully", error := none,
         server_config := some cfg, config := none }, a2)
    else
      ({ success := false, message := none, error := some "Failed to start server",
         server_config := none, config := none }, a2)

/-- The `GET /server-status` response body. -/
structure StatusResponse where
  running : Bool
  config : Dict
deriving DecidableEq, Repr

/-- The `GET /server-status` route: report `is_running` and, when
running, the global `current_config` (an empty dict otherwise). -/
def server_status (a : AppState) : StatusResponse :=
  { running := a.mc.is_running,
    config := if a.mc.is_running then a.current_config else [] }

/-- The `POST` branch of the `/api/config` route: reject while running
with exactly `success := False` and the fixed error string, leaving all
state untouched; otherwise merge the body into `current_config` with
`dict.update` and echo the merged dict back. -/
def server_config_post (body : Dict) (a : AppState) : ApiResponse × AppState :=
  if a.mc.is_running then
    ({ success := false, message := none,
       error := some "Cannot change config while server is running",
       server_config := none, config := none }, a)
  else
    let cfg := dictUpdate a.current_config body
    ({ success := true, message := some "Configuration updated", error := none,
       server_config := none, config := some cfg },
     { a with current_config := cfg })

/-! Concrete fixtures used by counterexamples and witnesses. -/

/-- An empty filesystem: nothing provisioned yet. -/
def fsEmpty : FS :=
  { jarExists := false, worldExists := false, eula := none, props := none }

/-- A filesystem with the jar present but no `world` marker. -/
def fsFresh : FS :=
  { jarExists := true, worldExists := false, eula := none, props := none }

/-- A fully provisioned filesystem: jar and `world` marker present. -/
def fsProvisioned : FS :=
  { jarExists := true, worldExists := true, eula := some "eula=true\n", props := none }

/-- An environment where every fallible step succeeds. -/
def envAllOk : StartEnv :=
  { dl := { networkOk := true, writeOk := true },
    gen := { bootstrapTimesOut := false, bootstrapExitCode := 0,
             bootstrapCreatesWorld := true, eulaWriteFails := false,
             propsWriteFails := false },
    spawnOk := true, spawnedWriteOk := true, spawnedExitsWithin30 := true }

/-- A generation environment where everything succeeds. -/
def genEnvOk : GenEnv :=
  { bootstrapTimesOut := false, bootstrapExitCode := 0, bootstrapCreatesWorld := true,
    eulaWriteFails := false, propsWriteFails := false }

/-- A generation environment where the bootstrap run exceeds its
30-second timeout; both file writes would succeed. -/
def genEnvTimeout : GenEnv :=
  { bootstrapTimesOut := true, bootstrapExitCode := 0, bootstrapCreatesWorld := false,
    eulaWriteFails := false, propsWriteFails := false }

/-- A generation environment where the bootstrap run completes with a
non-zero exit code; both file writes succeed. -/
def genEnvNonzeroExit : GenEnv :=
  { bootstrapTimesOut := false, bootstrapExitCode := 1, bootstrapCreatesWorld := true,
    eulaWriteFails := false, propsWriteFails := false }

/-- A process with a working stdin pipe that ignores the stop directive
and does not exit within the 30-second wait. -/
def stuckProc : ProcHandle :=
  { behavior := { stdinPiped := true, stdinWriteOk := true, exitsWithin30 := false },
    alive := true }

/-- A process with a working stdin pipe that honours the stop directive
within the deadline. -/
def politeProc : ProcHandle :=
  { behavior := { stdinPiped := true, stdinWriteOk := true, exitsWithin30 := true },
    alive := true }

/-- A process spawned without a stdin pipe — the shape
`MinecraftServer.start` actually produces, since its `Popen` call passes
no `stdin` argument. -/
def pipelessProc : ProcHandle :=
  { behavior := { stdinPiped := false, stdinWriteOk := true, exitsWithin30 := true },
    alive := true }

/-- A running controller holding `stuckProc`. -/
def runningStuck : MCState :=
  { process := some stuckProc, is_running := true, port := JVal.num 25565 }

/-- A running controller holding `politeProc`. -/
def runningPolite : MCState :=
  { process := some politeProc, is_running := true, port := JVal.num 25565 }

/-- A running controller holding `pipelessProc`. -/
def runningPipeless : MCState :=
  { process := some pipelessProc, is_running := true, port := JVal.num 25565 }

/-- A running application state whose stored config has `motd = "old"`. -/
def appRunningOld : AppState :=
  { mc := runningStuck,
    current_config := [("motd", JVal.str "old")],
    fs := fsProvisioned }

/-- A freshly constructed application state. -/
def appFresh : AppState :=
  { mc := MinecraftServer.init, current_config := [], fs := fsEmpty }

/-- The invariant claimed for `ServerHandle`, weakened to reference
holding: the liveness flag is true iff a process reference is held. -/
def handleRefInvariant (s : MCState) : Prop :=
  s.is_running = s.process.isSome

/-! Theorems about the embedded program. -/

/-- C7: for every input configuration, the properties file has the fixed
key set in its fixed order, and the three policy entries are always
`online-mode=false`, `enable-command-block=true`, `spawn-protection=0`,
even when the configuration binds those keys to other values — the
generator never consults the configuration for them. -/
theorem serverProperties_fixed_keys_and_policy (config : Dict) :
    (serverProperties config).map Prod.fst =
      ["motd", "gamemode", "difficulty", "max-players", "server-port",
       "online-mode", "enable-command-block", "spawn-protection"] ∧
    assocStr (serverProperties config) "online-mode" = some "false" ∧
    assocStr (serverProperties config) "enable-command-block" = some "true" ∧
    assocStr (serverProperties config) "spawn-protection" = some "0" := by
  refine ⟨rfl, ?_, ?_, ?_⟩ <;> rfl

/-- C9: on a directory whose `world` marker is present,
`generate_server_files` skips the bootstrap invocation and is
idempotent — re-running it with the same configuration and environment
reproduces exactly the same filesystem, result and trace, so the
properties file content is identical for any repeat count and the
bootstrap is skipped on every repeat. -/
theorem generate_server_files_idempotent (env : GenEnv) (config : Dict) (fs : FS)
    (h : fs.worldExists = true) :
    (MinecraftServer.generate_server_files env config fs).bootstrapRan = false ∧
    MinecraftServer.generate_server_files env config
        (MinecraftServer.generate_server_files env config fs).fs
      = MinecraftServer.generate_server_files env config fs := by
  by_cases he : env.eulaWriteFails <;> by_cases hp : env.propsWriteFails <;>
    simp [MinecraftServer.generate_server_files, genWrites, h, he, hp]

/-- C9 witness: the idempotence theorem instantiated on a provisioned
directory with an all-success environment. -/
theorem generate_server_files_idempotent_witness :
    (MinecraftServer.generate_server_files genEnvOk [] fsProvisioned).bootstrapRan = false ∧
    MinecraftServer.generate_server_files genEnvOk []
        (MinecraftServer.generate_server_files genEnvOk [] fsProvisioned).fs
      = MinecraftServer.generate_server_files genEnvOk [] fsProvisioned :=
  generate_server_files_idempotent genEnvOk [] fsProvisioned rfl

/-- C4 counterexample: on a directory with no `world` marker, when the
bootstrap run exceeds its 30-second timeout, `generate_server_files`
returns `False` and writes neither `eula.txt` nor `server.properties` —
the `TimeoutExpired` raised by `subprocess.run` is caught by the blanket
handler, so a timeout is NOT tolerated. -/
theorem generate_timeout_is_fatal :
    (MinecraftServer.generate_server_files genEnvTimeout [] fsFresh).ok = false ∧
    (MinecraftServer.generate_server_files genEnvTimeout [] fsFresh).fs.eula = none ∧
    (MinecraftServer.generate_server_files genEnvTimeout [] fsFresh).fs.props = none := by
  decide

/-- C4 amended: during materialization with no `world` marker, a
bootstrap timeout aborts `generate_server_files` with failure before any
file write; absent a timeout, the result is exactly determined by the
two file writes, and the bootstrap exit code is irrelevant (a non-zero
exit is tolerated, since `subprocess.run` is called without checking). -/
theorem generate_nonzero_exit_tolerated_timeout_fatal
    (env : GenEnv) (config : Dict) (fs : FS) (h : fs.worldExists = false) :
    (env.bootstrapTimesOut = true →
       MinecraftServer.generate_server_files env config fs =
         { fs := fs, ok := false, bootstrapRan := true }) ∧
    (env.bootstrapTimesOut = false →
       ((MinecraftServer.generate_server_files env config fs).ok = true ↔
          (env.eulaWriteFails = false ∧ env.propsWriteFails = false))) ∧
    MinecraftServer.generate_server_files env config fs =
      MinecraftServer.generate_server_files
        { env with bootstrapExitCode := 0 } config fs := by
  obtain ⟨t, ec, cw, ef, pf⟩ := env
  cases t <;> cases ef <;> cases pf <;>
    simp [MinecraftServer.generate_server_files, genWrites, h]

/-- C4 witness: with a completed bootstrap run that exited with code 1
and both writes succeeding, materialization succeeds. -/
theorem generate_nonzero_exit_tolerated_witness :
    (MinecraftServer.generate_server_files genEnvNonzeroExit [] fsFresh).ok = true ↔
      (genEnvNonzeroExit.eulaWriteFails = false ∧
       genEnvNonzeroExit.propsWriteFails = false) :=
  (generate_nonzero_exit_tolerated_timeout_fatal genEnvNonzeroExit [] fsFresh rfl).2.1 rfl

/-- C1 counterexample: a controller holding a process that accepts the
stop directive but does not exit within the 30-second deadline. Forced
termination occurs, yet after `stop` completes the liveness flag is
still `true` and the process reference is still held — `stop` leaves the
controller in RUNNING, refuting the claim. -/
theorem stop_can_leave_running :
    runningStuck.process ≠ none ∧
    (MinecraftServer.stop runningStuck).wroteDirective = true ∧
    (MinecraftServer.stop runningStuck).forcedTerminate = true ∧
    (MinecraftServer.stop runningStuck).state.is_running = true ∧
    (MinecraftServer.stop runningStuck).state.process ≠ none := by
  decide

/-- C1 amended: with a held process, `stop` clears the reference and
transitions to STOPPED exactly on the fully graceful path (stdin pipe
present, write and flush succeed, exit within 30 units); when the
directive write fails or the deadline expires, it force-terminates the
process but leaves `is_running` and the (now dead) reference unchanged
and returns `False` — so a failed stop leaves a running controller in
RUNNING. -/
theorem stop_state_characterization (s : MCState) (p : ProcHandle)
    (h : s.process = some p) :
    (p.behavior.stdinPiped = true ∧ p.behavior.stdinWriteOk = true ∧
       p.behavior.exitsWithin30 = true →
       MinecraftServer.stop s =
         { state := { s with process := none, is_running := false }, ok := true,
           wroteDirective := true, waited := true, forcedTerminate := false }) ∧
    (¬ (p.behavior.stdinPiped = true ∧ p.behavior.stdinWriteOk = true ∧
          p.behavior.exitsWithin30 = true) →
       (MinecraftServer.stop s).state.is_running = s.is_running ∧
       (MinecraftServer.stop s).state.process = some { p with alive := false } ∧
       (MinecraftServer.stop s).ok = false ∧
       (MinecraftServer.stop s).forcedTerminate = true) := by
  obtain ⟨⟨sp, sw, se⟩, al⟩ := p
  cases sp <;> cases sw <;> cases se <;>
    simp [MinecraftServer.stop, h]

/-- C1 witness: the graceful branch of the characterization at a
controller holding a cooperative process. -/
theorem stop_state_characterization_witness :
    MinecraftServer.stop runningPolite =
      { state := { runningPolite with process := none, is_running := false },
        ok := true, wroteDirective := true, waited := true, forcedTerminate := false } :=
  (stop_state_characterization runningPolite politeProc rfl).1 ⟨rfl, rfl, rfl⟩

/-- C2: the `Popen` call in `start` passes no `stdin` argument, so the
process held after a successful start has no stdin pipe; `stop` on that
state raises at `self.process.stdin.write` (stdin is `None`): the
directive is never written, the 30-second wait is never reached, and the
process is terminated immediately with `stop` returning `False` — even
for a process that would have exited within the deadline. -/
theorem stop_after_start_never_graceful :
    (MinecraftServer.start envAllOk (defaultedConfig []) MinecraftServer.init fsEmpty).ok
      = true ∧
    ((MinecraftServer.start envAllOk (defaultedConfig [])
        MinecraftServer.init fsEmpty).state.process.map
      (fun p => p.behavior.stdinPiped)) = some false ∧
    (MinecraftServer.stop (MinecraftServer.start envAllOk (defaultedConfig [])
        MinecraftServer.init fsEmpty).state).wroteDirective = false ∧
    (MinecraftServer.stop (MinecraftServer.start envAllOk (defaultedConfig [])
        MinecraftServer.init fsEmpty).state).waited = false ∧
    (MinecraftServer.stop (MinecraftServer.start envAllOk (defaultedConfig [])
        MinecraftServer.init fsEmpty).state).forcedTerminate = true ∧
    (MinecraftServer.stop (MinecraftServer.start envAllOk (defaultedConfig [])
        MinecraftServer.init fsEmpty).state).ok = false := by
  decide

/-- C5 counterexample: `stop` on a controller holding the pipe-less
process shape that `start` produces terminates the process but keeps the
liveness flag `true` and the reference held — the flag is `true` while
the referenced process is dead, so the "liveness flag iff live process"
invariant is not preserved by `stop`. -/
theorem stop_breaks_live_handle_invariant :
    (MinecraftServer.stop runningPipeless).state.is_running = true ∧
    ((MinecraftServer.stop runningPipeless).state.process.map ProcHandle.alive)
      = some false := by
  decide

/-- C5 amended: every controller operation preserves the weakened
invariant that the liveness flag is true iff a process REFERENCE is held
(live or not): the initial state satisfies it, and `start` (under any
environment and configuration) and `stop` preserve it. The reference is
cleared only by a fully successful `stop`; a failed `stop` keeps a dead
reference with the flag still true. -/
theorem operations_preserve_handle_ref_invariant :
    handleRefInvariant MinecraftServer.init ∧
    (∀ (env : StartEnv) (config : Dict) (s : MCState) (fs : FS),
       handleRefInvariant s →
       handleRefInvariant (MinecraftServer.start env config s fs).state) ∧
    (∀ s : MCState, handleRefInvariant s →
       handleRefInvariant (MinecraftServer.stop s).state) := by
  refine ⟨rfl, ?_, ?_⟩
  · intro env config s fs h
    unfold handleRefInvariant MinecraftServer.start at *
    dsimp only
    split
    · exact h
    · split
      · exact h
      · split
        · exact h
        · rfl
  · intro s h
    unfold handleRefInvariant MinecraftServer.stop at *
    cases hp : s.process with
    | none => simp
    | some p =>
        rw [hp] at h
        cases hb : (p.behavior.stdinPiped && p.behavior.stdinWriteOk) <;>
          cases he : p.behavior.exitsWithin30 <;>
            simp [hp, hb, he, h]

/-- C5 witness: the `stop` clause of the invariant-preservation theorem
applied at the initial state. -/
theorem operations_preserve_handle_ref_invariant_witness :
    handleRefInvariant (MinecraftServer.stop MinecraftServer.init).state :=
  operations_preserve_handle_ref_invariant.2.2 MinecraftServer.init rfl

/-- C3 counterexample: a `POST /start-server` while RUNNING is rejected
with the `AlreadyRunning` error, yet the stored configuration record IS
changed: the route overwrites `current_config` from the request body
before the `is_running` check, so the rejected call is not side-effect
free. -/
theorem start_server_rejection_mutates_stored_config :
    ((start_server envAllOk [("motd", JVal.str "new")] appRunningOld).1 =
       { success := false, message := none,
         error := some "Server is already running",
         server_config := none, config := none }) ∧
    (start_server envAllOk [("motd", JVal.str "new")] appRunningOld).2.current_config ≠
      appRunningOld.current_config := by
  decide

/-- C3 amended: a `POST /start-server` while RUNNING returns exactly the
`AlreadyRunning` error envelope and changes neither the controller state
nor the filesystem, but it does overwrite the stored configuration
record with the request's defaulted configuration before rejecting. -/
theorem start_server_rejected_only_config_overwritten
    (env : StartEnv) (body : Dict) (a : AppState) (h : a.mc.is_running = true) :
    start_server env body a =
      ({ success := false, message := none,
         error := some "Server is already running",
         server_config := none, config := none },
       { a with current_config := defaultedConfig body }) := by
  simp [start_server, h]

/-- C3 witness: the rejected-call theorem at a concrete running state. -/
theorem start_server_rejected_only_config_overwritten_witness :
    start_server envAllOk [] appRunningOld =
      ({ success := false, message := none,
         error := some "Server is already running",
         server_config := none, config := none },
       { appRunningOld with current_config := defaultedConfig [] }) :=
  start_server_rejected_only_config_overwritten envAllOk [] appRunningOld rfl

/-- C6: when `POST /start-server` runs while not RUNNING and every
fallible step succeeds (download, no bootstrap timeout, both file
writes, spawn), the response reports success, the controller is RUNNING,
and `GET /server-status` reports running with the stored configuration:
the body's fields with the declared defaults for omitted ones and the
port forced to 25565 regardless of the body. -/
theorem start_server_success_reports_config
    (env : StartEnv) (body : Dict) (a : AppState)
    (hrun : a.mc.is_running = false)
    (hnet : env.dl.networkOk = true) (hwr : env.dl.writeOk = true)
    (hboot : env.gen.bootstrapTimesOut = false)
    (heula : env.gen.eulaWriteFails = false)
    (hprops : env.gen.propsWriteFails = false)
    (hspawn : env.spawnOk = true) :
    (start_server env body a).1.success = true ∧
    (start_server env body a).2.mc.is_running = true ∧
    server_status (start_server env body a).2 =
      { running := true,
        config :=
          [ ("motd", body.getD "motd" (JVal.str "A Minecraft Server")),
            ("gamemode", body.getD "gamemode" (JVal.str "survival")),
            ("difficulty", body.getD "difficulty" (JVal.str "easy")),
            ("max_players", body.getD "maxPlayers" (JVal.num 20)),
            ("port", JVal.num 25565) ] } := by
  obtain ⟨⟨nw, wo⟩, ⟨bt, bec, bcw, ef, pf⟩, sp, swo, se⟩ := env
  obtain ⟨mc, cc, ⟨je, we, eu, pr⟩⟩ := a
  simp only at hrun hnet hwr hboot heula hprops hspawn
  subst hnet hwr hboot heula hprops hspawn
  cases je <;> cases we <;>
    simp [start_server, MinecraftServer.start, MinecraftServer.download_server,
      MinecraftServer.generate_server_files, genWrites, server_status,
      defaultedConfig, hrun]

/-- C6 witness: a successful start from a fresh application state with
an empty request body. -/
theorem start_server_success_reports_config_witness :
    (start_server envAllOk [] appFresh).1.success = true ∧
    (start_server envAllOk [] appFresh).2.mc.is_running = true ∧
    server_status (start_server envAllOk [] appFresh).2 =
      { running := true,
        config :=
          [ ("motd", Dict.getD [] "motd" (JVal.str "A Minecraft Server")),
            ("gamemode", Dict.getD [] "gamemode" (JVal.str "survival")),
            ("difficulty", Dict.getD [] "difficulty" (JVal.str "easy")),
            ("max_players", Dict.getD [] "maxPlayers" (JVal.num 20)),
            ("port", JVal.num 25565) ] } :=
  start_server_success_reports_config envAllOk [] appFresh rfl rfl rfl rfl rfl rfl rfl

/-- C8: `POST /api/config` while RUNNING returns exactly the
`success := false` envelope with the fixed error string and leaves the
whole application state (stored configuration included) untouched; when
not running, it merges the body into the stored configuration with
`dict.update` semantics and echoes the merged dict back with
`success := true`. -/
theorem server_config_post_spec (body : Dict) (a : AppState) :
    (a.mc.is_running = true →
       server_config_post body a =
         ({ success := false, message := none,
            error := some "Cannot change config while server is running",
            server_config := none, config := none }, a)) ∧
    (a.mc.is_running = false →
       server_config_post body a =
         ({ success := true, message := some "Configuration updated", error := none,
            server_config := none,
            config := some (dictUpdate a.current_config body) },
          { a with current_config := dictUpdate a.current_config body })) := by
  constructor <;> intro h <;> simp [server_config_post, h]

/-- C8 witness: the spec scenario — `POST /api/config` with
`difficulty=hard` while RUNNING is rejected and the state is returned
unchanged. -/
theorem server_config_post_spec_witness :
    server_config_post [("difficulty", JVal.str "hard")] appRunningOld =
      ({ success := false, message := none,
         error := some "Cannot change config while server is running",
         server_config := none, config := none }, appRunningOld) :=
  (server_config_post_spec [("difficulty", JVal.str "hard")] appRunningOld).1 rfl

/-- C10: the HTTP interface validates nothing: `POST /api/config` while
not running merges every key/value pair of the body verbatim into the
stored configuration (arbitrary keys outside the schema, arbitrary
values outside the declared enums and ranges), and `POST /start-server`
stores the body's `motd`, `gamemode`, `difficulty` and `maxPlayers`
values unchecked, whatever they are, with the port forced to 25565. -/
theorem http_interface_no_validation (body : Dict) (a : AppState) (env : StartEnv) :
    (a.mc.is_running = false →
       (server_config_post body a).2.current_config =
         dictUpdate a.current_config body) ∧
    (start_server env body a).2.current_config =
      [ ("motd", body.getD "motd" (JVal.str "A Minecraft Server")),
        ("gamemode", body.getD "gamemode" (JVal.str "survival")),
        ("difficulty", body.getD "difficulty" (JVal.str "easy")),
        ("max_players", body.getD "maxPlayers" (JVal.num 20)),
        ("port", JVal.num 25565) ] := by
  constructor
  · intro h
    simp [server_config_post, h]
  · unfold start_server
    dsimp only
    split
    · rfl
    · split <;> rfl

/-- C10 witness: a body with an out-of-schema key and an out-of-enum
difficulty is merged verbatim into the stored configuration. -/
theorem http_interface_no_validation_witness :
    (server_config_post [("hax", JVal.num 0), ("difficulty", JVal.num 99)]
        appFresh).2.current_config =
      dictUpdate appFresh.current_config
        [("hax", JVal.num 0), ("difficulty", JVal.num 99)] :=
  (http_interface_no_validation [("hax", JVal.num 0), ("difficulty", JVal.num 99)]
    appFresh envAllOk).1 rfl

end MCApi
